import Mathlib

/-!
Shallow embedding of `src/index.js` of travishorn/session-timeout.

The library installs a two-stage countdown (warn dialog, then timeout action)
in a browser tab and synchronizes resets across tabs through a single
localStorage key. We embed the closure state of `sessionTimeout` as a record
`St`, each inner function as a state transformer `St → St × List Ev` that also
emits the side-effect events it performs in source order, and the passage of
virtual time as `advanceTo`, which fires the due scheduled callbacks in fire
order. Timer handles are modelled as the absolute virtual instant at which the
scheduled callback fires (`none` = no pending handle). Strings, `parseInt`
and `Number.prototype.toString` are modelled directly so that malformed
stored values behave as in JS (`parseInt` yielding NaN, NaN being falsy and
incomparable).
-/

set_option linter.unusedVariables false

namespace SessionTimeout

/-- A JS value as this library observes it: `null`, `NaN`, or an integer
number (all numbers the code manipulates are integral milliseconds). -/
inductive JSVal where
  | null : JSVal
  | nan : JSVal
  | num : Int → JSVal
deriving DecidableEq

/-- Truthiness of a `JSVal`: `null`, `NaN` and `0` are falsy. -/
def truthy : JSVal → Bool
  | JSVal.num n => decide (n ≠ 0)
  | _ => false

/-- Whitespace skipped by `parseInt` (space, tab, newline, carriage return),
identified by code point. -/
def isWsChar (c : Char) : Bool :=
  c.toNat = 32 || c.toNat = 9 || c.toNat = 10 || c.toNat = 13

/-- Decimal digit character, identified by code point (48 = '0', 57 = '9'). -/
def isDigitChar (c : Char) : Bool :=
  48 ≤ c.toNat && c.toNat ≤ 57

/-- Numeric value of a decimal digit character. -/
def digitVal (c : Char) : Nat := c.toNat - 48

/-- Value of a big-endian decimal digit list. -/
def digitsToNat (cs : List Char) : Nat :=
  cs.foldl (fun a c => a * 10 + digitVal c) 0

/-- Parse the leading run of decimal digits, as `parseInt` does after the
optional sign: trailing garbage is ignored, an empty run gives NaN. -/
def parseRun (cs : List Char) : JSVal :=
  let run := cs.takeWhile isDigitChar
  if run.isEmpty then JSVal.nan else JSVal.num (digitsToNat run)

/-- Negation lifted to JS values (NaN stays NaN). -/
def negOf : JSVal → JSVal
  | JSVal.num n => JSVal.num (-n)
  | v => v

/-- `parseInt(s, 10)`: skip whitespace, optional sign (45 = '-', 43 = '+'),
then the leading decimal digit run; NaN when no digits follow. -/
def parseIntJS (s : String) : JSVal :=
  match s.toList.dropWhile isWsChar with
  | [] => JSVal.nan
  | c :: rest =>
      if c.toNat = 45 then negOf (parseRun rest)
      else if c.toNat = 43 then parseRun rest
      else parseRun (c :: rest)

/-- The decimal digit character for a value below ten (values of ten or more
never arise; they map to '9'). -/
def digCh (n : Nat) : Char :=
  if n = 0 then '0' else if n = 1 then '1' else if n = 2 then '2'
  else if n = 3 then '3' else if n = 4 then '4' else if n = 5 then '5'
  else if n = 6 then '6' else if n = 7 then '7' else if n = 8 then '8'
  else '9'

/-- Big-endian decimal digits of a natural number, with explicit fuel so the
definition reduces in the kernel; `fuel > n` is always enough. -/
def natDigitsAux : Nat → Nat → List Char
  | 0, _ => []
  | fuel + 1, n =>
      if n < 10 then [digCh n]
      else natDigitsAux fuel (n / 10) ++ [digCh (n % 10)]

/-- Big-endian decimal digits of a natural number. -/
def natDigits (n : Nat) : List Char := natDigitsAux (n + 1) n

/-- `Number.prototype.toString` for the integers the code writes to storage. -/
def intToString (i : Int) : String :=
  if i < 0 then String.mk ('-' :: natDigits i.natAbs)
  else String.mk (natDigits i.natAbs)

theorem digitVal_digCh {d : Nat} (h : d < 10) : digitVal (digCh d) = d := by
  interval_cases d <;> decide

theorem isDigitChar_digCh (d : Nat) : isDigitChar (digCh d) = true := by
  unfold digCh
  split_ifs <;> decide

theorem natDigitsAux_all_digits :
    ∀ fuel n, ∀ c ∈ natDigitsAux fuel n, isDigitChar c = true := by
  intro fuel
  induction fuel with
  | zero => intro n c hc; simp [natDigitsAux] at hc
  | succ f ih =>
      intro n c hc
      rw [natDigitsAux] at hc
      by_cases h : n < 10
      · simp [h] at hc
        subst hc; exact isDigitChar_digCh n
      · simp [h] at hc
        rcases hc with hc | hc
        · exact ih _ c hc
        · subst hc; exact isDigitChar_digCh (n % 10)

theorem natDigitsAux_ne_nil (fuel n : Nat) (h : n < fuel) :
    natDigitsAux fuel n ≠ [] := by
  cases fuel with
  | zero => omega
  | succ f =>
      rw [natDigitsAux]
      by_cases h10 : n < 10
      · simp [h10]
      · simp [h10]

theorem digitsToNat_append_one (xs : List Char) (c : Char) :
    digitsToNat (xs ++ [c]) = digitsToNat xs * 10 + digitVal c := by
  simp [digitsToNat, List.foldl_append]

theorem digitsToNat_natDigitsAux :
    ∀ fuel n, n < fuel → digitsToNat (natDigitsAux fuel n) = n := by
  intro fuel
  induction fuel with
  | zero => intro n h; omega
  | succ f ih =>
      intro n h
      rw [natDigitsAux]
      by_cases h10 : n < 10
      · simp only [h10, if_true]
        have : digitsToNat [digCh n] = digitVal (digCh n) := by
          simp [digitsToNat]
        rw [this, digitVal_digCh h10]
      · simp only [h10, if_false]
        rw [digitsToNat_append_one]
        have hdiv : n / 10 < f := by omega
        rw [ih (n / 10) hdiv, digitVal_digCh (Nat.mod_lt n (by omega))]
        omega

theorem natDigits_all_digits (n : Nat) :
    ∀ c ∈ natDigits n, isDigitChar c = true :=
  natDigitsAux_all_digits (n + 1) n

theorem natDigits_ne_nil (n : Nat) : natDigits n ≠ [] :=
  natDigitsAux_ne_nil (n + 1) n (Nat.lt_succ_self n)

theorem digitsToNat_natDigits (n : Nat) : digitsToNat (natDigits n) = n :=
  digitsToNat_natDigitsAux (n + 1) n (Nat.lt_succ_self n)

theorem isWsChar_of_digit {c : Char} (h : isDigitChar c = true) :
    isWsChar c = false := by
  simp [isDigitChar] at h
  simp [isWsChar]
  omega

theorem dropWhile_ws_of_digits (l : List Char)
    (h : ∀ c ∈ l, isDigitChar c = true) : l.dropWhile isWsChar = l := by
  cases l with
  | nil => rfl
  | cons c t =>
      have hd : isDigitChar c = true := h c (List.mem_cons_self c t)
      rw [List.dropWhile_cons]
      simp [isWsChar_of_digit hd]

theorem takeWhile_digits_self :
    ∀ l : List Char, (∀ c ∈ l, isDigitChar c = true) →
      l.takeWhile isDigitChar = l := by
  intro l
  induction l with
  | nil => intro h; rfl
  | cons c t ih =>
      intro h
      rw [List.takeWhile_cons]
      have hd : isDigitChar c = true := h c (List.mem_cons_self c t)
      simp only [hd, if_true]
      exact congrArg (fun r => c :: r)
        (ih (fun x hx => h x (List.mem_cons_of_mem c hx)))

theorem parseRun_natDigits (n : Nat) :
    parseRun (natDigits n) = JSVal.num n := by
  unfold parseRun
  rw [takeWhile_digits_self _ (natDigits_all_digits n)]
  cases hd : natDigits n with
  | nil => exact absurd hd (natDigits_ne_nil n)
  | cons c t =>
      simp only [List.isEmpty_cons, Bool.false_eq_true, if_false]
      rw [← hd, digitsToNat_natDigits]

/-- Round trip: the string the code writes with toString is parsed back by
parseInt to the same integer. -/
theorem parseIntJS_intToString (i : Int) :
    parseIntJS (intToString i) = JSVal.num i := by
  unfold parseIntJS intToString
  by_cases hneg : i < 0
  · simp only [hneg, if_true]
    have htl : (String.mk ('-' :: natDigits i.natAbs)).toList
        = '-' :: natDigits i.natAbs := rfl
    rw [htl]
    rw [List.dropWhile_cons]
    have hws : isWsChar '-' = false := by decide
    simp only [hws, Bool.false_eq_true, if_false]
    have h45 : ('-' : Char).toNat = 45 := by decide
    simp only [h45, if_true]
    rw [parseRun_natDigits]
    show JSVal.num (-(i.natAbs : Int)) = JSVal.num i
    congr 1
    omega
  · simp only [hneg, if_false]
    have htl : (String.mk (natDigits i.natAbs)).toList = natDigits i.natAbs := rfl
    rw [htl]
    rw [dropWhile_ws_of_digits _ (natDigits_all_digits _)]
    have hne := natDigits_ne_nil i.natAbs
    cases hd : natDigits i.natAbs with
    | nil => exact absurd hd hne
    | cons c t =>
        have hc : isDigitChar c = true := by
          have := natDigits_all_digits i.natAbs
          rw [hd] at this
          exact this c (List.mem_cons_self c t)
        have hcn : 48 ≤ c.toNat ∧ c.toNat ≤ 57 := by
          simp [isDigitChar] at hc; omega
        have h45 : ¬ (c.toNat = 45) := by omega
        have h43 : ¬ (c.toNat = 43) := by omega
        simp only [h45, if_false, h43]
        rw [← hd, parseRun_natDigits]
        congr 1
        omega

theorem parseIntJS_empty : parseIntJS "" = JSVal.nan := by decide

theorem intToString_ne_empty (i : Int) : intToString i ≠ "" := by
  unfold intToString
  by_cases hneg : i < 0
  · simp only [hneg, if_true]
    intro h
    have : ('-' :: natDigits i.natAbs) = [] := congrArg String.toList h
    simp at this
  · simp only [hneg, if_false]
    intro h
    have : natDigits i.natAbs = [] := congrArg String.toList h
    exact natDigits_ne_nil _ this

/-! ## The closure state of `sessionTimeout` and its inner functions -/

/-- The recognized duration options (`warnAt` line 3, `timeoutAt` line 4 of
`src/index.js`). The action callbacks are modelled as counters in `St`
because the core only invokes them. -/
structure Env where
  warnAt : Int
  timeoutAt : Int
deriving DecidableEq

/-- The fixed localStorage key (`storageKey`, line 32). -/
def storageKey : String := "session-timeout-last-reset"

/-- Side-effect events, emitted in the order the source performs them.
`clearWarn`/`clearTimeout` are `clearTimeout(warnTimeoutId)` /
`clearTimeout(redirectTimeoutId)`; the schedule events are the two
`setTimeout` calls with the delay passed; the invoke events are the calls to
the user-supplied `onContinue`/`onLogout`/`onTimeout` actions; `showDlg` /
`closeDlg` are the dialog being shown / removed; `writeStore` is
`localStorage.setItem`. -/
inductive Ev where
  | clearWarn : Ev
  | clearTimeout : Ev
  | scheduleWarn : Int → Ev
  | scheduleTimeout : Int → Ev
  | showDlg : Ev
  | closeDlg : Ev
  | invokeContinue : Ev
  | invokeLogout : Ev
  | invokeTimeout : Ev
  | writeStore : Ev
deriving DecidableEq

/-- The closure state of one `sessionTimeout(options)` activation, plus the
virtual clock, the shared store, and counters for the external actions.
A timer handle is modelled as the absolute instant its callback fires
(`none` = handle absent / `null`). -/
structure St where
  now : Int
  warnFireAt : Option Int
  timeoutFireAt : Option Int
  dialog : Bool
  listener : Bool
  store : Option String
  showCount : Nat
  timeoutCount : Nat
  continueCount : Nat
  logoutCount : Nat
  storeWrites : Nat
deriving DecidableEq

/-- `closeDialog` (lines 75-86): removes the dialog when present. -/
def closeDialog (st : St) : St × List Ev :=
  if st.dialog then ({ st with dialog := false }, [Ev.closeDlg]) else (st, [])

/-- `showDialog` (lines 88-97): creates the dialog if absent and shows it. -/
def showDialog (st : St) : St × List Ev :=
  ({ st with dialog := true, showCount := st.showCount + 1 }, [Ev.showDlg])

/-- `handleTimeout` (lines 99-102): close the dialog if still open, then
invoke the timeout action. -/
def handleTimeout (st : St) : St × List Ev :=
  let p1 := closeDialog st
  ({ p1.1 with timeoutCount := p1.1.timeoutCount + 1 },
   p1.2 ++ [Ev.invokeTimeout])

/-- `updateLastResetTime` (lines 104-109): write the current instant, as a
decimal string, to the shared store. -/
def updateLastResetTime (st : St) : St × List Ev :=
  ({ st with store := some (intToString st.now),
             storeWrites := st.storeWrites + 1 }, [Ev.writeStore])

/-- `getLastResetTime` (lines 111-117): a falsy stored value (absent key or
empty string) reads as null, otherwise `parseInt(stored, 10)`. -/
def getLastResetTime (st : St) : JSVal :=
  match st.store with
  | none => JSVal.null
  | some s => if s = "" then JSVal.null else parseIntJS s

/-- `startTimers` (lines 160-184): clear both handles if present, clamp the
durations to non-negative, then schedule warn and timeout. -/
def startTimers (env : Env) (st : St) : St × List Ev :=
  let p1 := if st.warnFireAt.isSome
    then ({ st with warnFireAt := none }, [Ev.clearWarn]) else (st, [])
  let p2 := if p1.1.timeoutFireAt.isSome
    then ({ p1.1 with timeoutFireAt := none }, [Ev.clearTimeout]) else (p1.1, [])
  let actualWarnAt := max 0 env.warnAt
  let actualTimeoutAt := max 0 env.timeoutAt
  ({ p2.1 with warnFireAt := some (p2.1.now + actualWarnAt),
               timeoutFireAt := some (p2.1.now + actualTimeoutAt) },
   p1.2 ++ p2.2 ++ [Ev.scheduleWarn actualWarnAt, Ev.scheduleTimeout actualTimeoutAt])

/-- `handleContinue` (lines 60-67): invoke the continue action, close the
dialog, write the reset instant, restart the timers — in that order. -/
def handleContinue (env : Env) (st : St) : St × List Ev :=
  let s0 : St := { st with continueCount := st.continueCount + 1 }
  let p1 := closeDialog s0
  let p2 := updateLastResetTime p1.1
  let p3 := startTimers env p2.1
  (p3.1, Ev.invokeContinue :: (p1.2 ++ p2.2 ++ p3.2))

/-- `handleLogout` (lines 69-73): invoke the logout action and close the
dialog; timers are not restarted and not cleared. -/
def handleLogout (st : St) : St × List Ev :=
  let s0 : St := { st with logoutCount := st.logoutCount + 1 }
  let p1 := closeDialog s0
  (p1.1, Ev.invokeLogout :: p1.2)

/-- A storage change notification as delivered to the listener. -/
structure StorageEvent where
  key : String
  newValue : Option String
deriving DecidableEq

/-- `handleStorageChange` (lines 119-137). The guard requires the fixed key
and a truthy (present, non-empty) new value. NaN from `parseInt` makes both
branch comparisons false, so nothing happens. -/
def handleStorageChange (env : Env) (st : St) (ev : StorageEvent) : St × List Ev :=
  match ev.newValue with
  | none => (st, [])
  | some s =>
      if ev.key = storageKey ∧ s ≠ "" then
        match parseIntJS s with
        | JSVal.num t =>
            let timeSinceReset := st.now - t
            if env.warnAt ≤ timeSinceReset then
              let p1 := closeDialog st
              let p2 := showDialog p1.1
              (p2.1, p1.2 ++ p2.2)
            else if timeSinceReset < min env.warnAt env.timeoutAt then
              let p1 := closeDialog st
              let p2 := startTimers env p1.1
              (p2.1, p1.2 ++ p2.2)
            else (st, [])
        | _ => (st, [])
      else (st, [])

/-- A storage event reaches `handleStorageChange` only while the listener
installed by `setupStorageListener` (lines 139-147) is attached. -/
def onStorageEvent (env : Env) (st : St) (ev : StorageEvent) : St × List Ev :=
  if st.listener then handleStorageChange env st ev else (st, [])

/-- `reset` (lines 186-193): close dialog, write the reset instant, restart. -/
def reset (env : Env) (st : St) : St × List Ev :=
  let p1 := closeDialog st
  let p2 := updateLastResetTime p1.1
  let p3 := startTimers env p2.1
  (p3.1, p1.2 ++ p2.2 ++ p3.2)

/-- `destroy` (lines 195-206): clear both handles, close the dialog, detach
the storage listener. -/
def destroy (st : St) : St × List Ev :=
  let p1 := if st.warnFireAt.isSome
    then ({ st with warnFireAt := none }, [Ev.clearWarn]) else (st, [])
  let p2 := if p1.1.timeoutFireAt.isSome
    then ({ p1.1 with timeoutFireAt := none }, [Ev.clearTimeout]) else (p1.1, [])
  let p3 := closeDialog p2.1
  ({ p3.1 with listener := false }, p1.2 ++ p2.2 ++ p3.2)

/-- The closure state at the top of `sessionTimeout`, before the activation
block runs (lines 29-33): no handles, no dialog, no listener. -/
def initSt (now : Int) (store0 : Option String) : St :=
  { now := now, warnFireAt := none, timeoutFireAt := none, dialog := false,
    listener := false, store := store0, showCount := 0, timeoutCount := 0,
    continueCount := 0, logoutCount := 0, storeWrites := 0 }

/-- The activation block of `sessionTimeout` (lines 208-248): attach the
storage listener, write the current instant to the store, read the store
back, and reconcile. Note the write at line 212 precedes the read at
line 215. `if (lastResetTime)` is JS truthiness, so null, NaN and 0 all take
the fresh-timers branch. -/
def sessionTimeout (env : Env) (now : Int) (store0 : Option String) : St × List Ev :=
  let s1 : St := { initSt now store0 with listener := true }
  let p2 := updateLastResetTime s1
  let s2 := p2.1
  match getLastResetTime s2 with
  | JSVal.num t =>
      if t = 0 then
        let p3 := startTimers env s2
        (p3.1, p2.2 ++ p3.2)
      else
        let timeSinceReset := s2.now - t
        let minTimeout := min env.warnAt env.timeoutAt
        if env.warnAt ≤ timeSinceReset then
          let p3 := showDialog s2
          (p3.1, p2.2 ++ p3.2)
        else if timeSinceReset < minTimeout then
          let remainingWarnTime := max 0 (env.warnAt - timeSinceReset)
          let remainingTimeoutTime := max 0 (env.timeoutAt - timeSinceReset)
          let p3 := if 0 < remainingWarnTime
            then (({ s2 with warnFireAt := some (s2.now + remainingWarnTime) } : St),
                  [Ev.scheduleWarn remainingWarnTime])
            else (s2, [])
          let p4 := if 0 < remainingTimeoutTime
            then (({ p3.1 with timeoutFireAt := some (p3.1.now + remainingTimeoutTime) } : St),
                  [Ev.scheduleTimeout remainingTimeoutTime])
            else (p3.1, [])
          (p4.1, p2.2 ++ p3.2 ++ p4.2)
        else
          let p3 := startTimers env s2
          (p3.1, p2.2 ++ p3.2)
  | _ =>
      let p3 := startTimers env s2
      (p3.1, p2.2 ++ p3.2)

/-! ## Virtual time -/

/-- The warn timer fires: its callback is `showDialog` (lines 176-178 and
231-233); the spent handle can no longer fire. -/
def fireWarn (st : St) : St :=
  { st with warnFireAt := none, dialog := true, showCount := st.showCount + 1 }

/-- The timeout timer fires: its callback is `handleTimeout` (lines 181-183
and 237-239), which closes the dialog then invokes the timeout action. -/
def fireTimeoutCb (st : St) : St :=
  { st with timeoutFireAt := none, dialog := false,
            timeoutCount := st.timeoutCount + 1 }

/-- Advance the virtual clock to instant `t`, firing every due scheduled
callback in fire order; at equal instants the warn callback runs first
because it is scheduled first (lines 176 and 181, 231 and 237). -/
def advanceTo (st0 : St) (t : Int) : St :=
  let st : St := { st0 with now := t }
  match st.warnFireAt, st.timeoutFireAt with
  | some w, some u =>
      if w ≤ t then
        if u ≤ t then
          if w ≤ u then fireTimeoutCb (fireWarn st) else fireWarn (fireTimeoutCb st)
        else fireWarn st
      else if u ≤ t then fireTimeoutCb st
      else st
  | some w, none => if w ≤ t then fireWarn st else st
  | none, some u => if u ≤ t then fireTimeoutCb st else st
  | none, none => st

/-- An external stimulus after activation: time passing, or a storage
notification from another tab. -/
inductive Stim where
  | advance : Int → Stim
  | storage : StorageEvent → Stim
deriving DecidableEq

def applyStim (env : Env) (st : St) : Stim → St
  | Stim.advance t => advanceTo st t
  | Stim.storage ev => (onStorageEvent env st ev).1

def runStims (env : Env) (st : St) (l : List Stim) : St :=
  l.foldl (applyStim env) st

/-! ## Event-order predicates -/

/-- Events that clear or schedule a timer handle. -/
def isClearOrSched : Ev → Bool
  | Ev.clearWarn => true
  | Ev.clearTimeout => true
  | Ev.scheduleWarn _ => true
  | Ev.scheduleTimeout _ => true
  | _ => false

/-- Events that invoke a user-supplied action. -/
def isInvoke : Ev → Bool
  | Ev.invokeContinue => true
  | Ev.invokeLogout => true
  | Ev.invokeTimeout => true
  | _ => false

/-- True when every handle clear / reschedule in the trace happens before
every invocation of a user-supplied action, i.e. no clear or schedule event
follows an invoke event. -/
def clearsBeforeInvokes : List Ev → Bool
  | [] => true
  | e :: rest =>
      if isInvoke e then
        rest.all (fun x => !(isClearOrSched x)) && clearsBeforeInvokes rest
      else clearsBeforeInvokes rest

/-! ## Structural helper lemmas -/

theorem startTimers_fst (env : Env) (st : St) :
    (startTimers env st).1
      = { st with warnFireAt := some (st.now + max 0 env.warnAt),
                  timeoutFireAt := some (st.now + max 0 env.timeoutAt) } := by
  unfold startTimers
  cases h1 : st.warnFireAt <;> cases h2 : st.timeoutFireAt <;> simp [h1, h2]

theorem destroy_fst (st : St) :
    (destroy st).1
      = { st with warnFireAt := none, timeoutFireAt := none,
                  dialog := false, listener := false } := by
  unfold destroy closeDialog
  cases h1 : st.warnFireAt <;> cases h2 : st.timeoutFireAt <;>
    cases h3 : st.dialog <;> simp [h1, h2, h3]

theorem handleContinue_fst (env : Env) (st : St) :
    (handleContinue env st).1
      = { st with dialog := false,
                  continueCount := st.continueCount + 1,
                  store := some (intToString st.now),
                  storeWrites := st.storeWrites + 1,
                  warnFireAt := some (st.now + max 0 env.warnAt),
                  timeoutFireAt := some (st.now + max 0 env.timeoutAt) } := by
  unfold handleContinue closeDialog updateLastResetTime
  cases hd : st.dialog <;> simp [hd, startTimers_fst]

theorem handleLogout_fst (st : St) :
    (handleLogout st).1
      = { st with dialog := false, logoutCount := st.logoutCount + 1 } := by
  unfold handleLogout closeDialog
  cases hd : st.dialog <;> simp [hd]

/-! ## Claim theorems -/

/-- C6: the continue decision always hides the warning and restarts both the
warn leg and the timeout leg from zero (full clamped delays measured from the
moment of the click, plus a store write), while the logout decision hides the
warning and performs no restart: the timer handles, in particular the
originally scheduled timeout handle, are left unmodified, so that handle
still fires at its original instant. -/
theorem continue_restarts_logout_preserves_timeout (env : Env) (st : St) :
    (handleContinue env st).1
      = { st with dialog := false,
                  continueCount := st.continueCount + 1,
                  store := some (intToString st.now),
                  storeWrites := st.storeWrites + 1,
                  warnFireAt := some (st.now + max 0 env.warnAt),
                  timeoutFireAt := some (st.now + max 0 env.timeoutAt) }
    ∧ (handleLogout st).1
      = { st with dialog := false, logoutCount := st.logoutCount + 1 }
    ∧ (handleLogout st).1.timeoutFireAt = st.timeoutFireAt
    ∧ (handleLogout st).1.warnFireAt = st.warnFireAt :=
  ⟨handleContinue_fst env st, handleLogout_fst st,
   by rw [handleLogout_fst], by rw [handleLogout_fst]⟩

/-- C9 counterexample: at a concrete state with both handles armed and the
dialog shown, `handleContinue` emits the continue-action invocation as its
very first event and only afterwards clears and reschedules the timer
handles, so the claim that handles are cleared (and rescheduling completed)
before the external action is invoked is false on this code. -/
theorem continue_invokes_action_before_clearing_cx :
    clearsBeforeInvokes (handleContinue ⟨100, 200⟩
      { now := 1000, warnFireAt := some 1080, timeoutFireAt := some 1180,
        dialog := true, listener := true, store := some "980", showCount := 1,
        timeoutCount := 0, continueCount := 0, logoutCount := 0,
        storeWrites := 0 }).2 = false
    ∧ (handleContinue ⟨100, 200⟩
      { now := 1000, warnFireAt := some 1080, timeoutFireAt := some 1180,
        dialog := true, listener := true, store := some "980", showCount := 1,
        timeoutCount := 0, continueCount := 0, logoutCount := 0,
        storeWrites := 0 }).2.head? = some Ev.invokeContinue := by
  constructor
  · decide
  · decide

/-- C9 amended: the code does the opposite of the claim in the decision
handlers — `handleContinue` invokes the continue action first and clears and
reschedules the handles only afterwards, `handleLogout` invokes the logout
action before hiding the dialog and never touches the handles, and
`handleTimeout` hides the warning before invoking the timeout action and
clears no handles. The full event traces, for every state: -/
theorem action_invocation_order (env : Env) (st : St) :
    (handleContinue env st).2
      = Ev.invokeContinue ::
          ((if st.dialog then [Ev.closeDlg] else []) ++ [Ev.writeStore]
            ++ (if st.warnFireAt.isSome then [Ev.clearWarn] else [])
            ++ (if st.timeoutFireAt.isSome then [Ev.clearTimeout] else [])
            ++ [Ev.scheduleWarn (max 0 env.warnAt),
                Ev.scheduleTimeout (max 0 env.timeoutAt)])
    ∧ (handleLogout st).2
      = Ev.invokeLogout :: (if st.dialog then [Ev.closeDlg] else [])
    ∧ (handleTimeout st).2
      = (if st.dialog then [Ev.closeDlg] else []) ++ [Ev.invokeTimeout] := by
  refine ⟨?_, ?_, ?_⟩
  · unfold handleContinue closeDialog updateLastResetTime startTimers
    cases hd : st.dialog <;> cases h1 : st.warnFireAt <;>
      cases h2 : st.timeoutFireAt <;> simp [hd, h1, h2]
  · unfold handleLogout closeDialog
    cases hd : st.dialog <;> simp [hd]
  · unfold handleTimeout closeDialog
    cases hd : st.dialog <;> simp [hd]

/-- C10: a storage change event whose key is not the fixed identifier, or
whose new value is absent or the empty string, changes nothing at all: the
state (timers, dialog, store, counters) is returned untouched and no events
are emitted. -/
theorem foreign_or_empty_storage_event_is_noop (env : Env) (st : St)
    (k : String) (v : Option String)
    (h : k ≠ storageKey ∨ v = none ∨ v = some "") :
    onStorageEvent env st ⟨k, v⟩ = (st, []) := by
  unfold onStorageEvent handleStorageChange
  rcases h with hk | hv | hv
  · cases hl : st.listener
    · simp
    · simp only [if_true]
      cases v with
      | none => rfl
      | some s =>
          have : ¬ (k = storageKey ∧ s ≠ "") := by
            intro hc; exact hk hc.1
          simp [this]
  · subst hv
    cases hl : st.listener <;> simp
  · subst hv
    have : ¬ (k = storageKey ∧ "" ≠ "") := by
      intro hc; exact hc.2 rfl
    cases hl : st.listener <;> simp [this]

/-- C10 witness: a concrete storage event for a different key is a no-op. -/
theorem foreign_or_empty_storage_event_is_noop_witness :
    ("different-key" ≠ storageKey ∨ (some "123" : Option String) = none
      ∨ (some "123" : Option String) = some "")
    ∧ onStorageEvent ⟨100, 200⟩
        { now := 1000, warnFireAt := some 1100, timeoutFireAt := some 1200,
          dialog := true, listener := true, store := some "900", showCount := 1,
          timeoutCount := 0, continueCount := 0, logoutCount := 0,
          storeWrites := 1 }
        ⟨"different-key", some "123"⟩
      = ({ now := 1000, warnFireAt := some 1100, timeoutFireAt := some 1200,
           dialog := true, listener := true, store := some "900", showCount := 1,
           timeoutCount := 0, continueCount := 0, logoutCount := 0,
           storeWrites := 1 }, []) :=
  ⟨Or.inl (by decide),
   foreign_or_empty_storage_event_is_noop ⟨100, 200⟩ _ _ _ (Or.inl (by decide))⟩

/-- Helper: a string that parses to a number is not empty. -/
theorem ne_empty_of_parse_num {s : String} {t : Int}
    (hp : parseIntJS s = JSVal.num t) : s ≠ "" := by
  intro h
  rw [h, parseIntJS_empty] at hp
  cases hp

/-- C5: a remote reset notification whose instant is at least `warnAt` in the
past, received by a tab whose warning is not yet visible, makes the dialog
visible immediately upon processing — the state change is exactly showing the
dialog, with no timer scheduled or cleared, and the only event emitted is the
show itself. -/
theorem overdue_notification_shows_dialog_immediately (env : Env) (st : St)
    (s : String) (t : Int)
    (hl : st.listener = true) (hd : st.dialog = false)
    (hp : parseIntJS s = JSVal.num t)
    (hover : env.warnAt ≤ st.now - t) :
    onStorageEvent env st ⟨storageKey, some s⟩
      = ({ st with dialog := true, showCount := st.showCount + 1 },
         [Ev.showDlg]) := by
  unfold onStorageEvent handleStorageChange
  have hs : s ≠ "" := ne_empty_of_parse_num hp
  simp only [hl, if_true]
  have hcond : (⟨storageKey, some s⟩ : StorageEvent).key = storageKey ∧ s ≠ "" :=
    ⟨rfl, hs⟩
  simp only [hcond, and_self, if_true, hp, hover]
  simp [closeDialog, showDialog, hd, hover, hs, hl]

/-- C5 witness. -/
theorem overdue_notification_shows_dialog_immediately_witness :
    ({ now := 1000, warnFireAt := some 1100, timeoutFireAt := some 1200,
       dialog := false, listener := true, store := none, showCount := 0,
       timeoutCount := 0, continueCount := 0, logoutCount := 0,
       storeWrites := 0 } : St).listener = true
    ∧ ({ now := 1000, warnFireAt := some 1100, timeoutFireAt := some 1200,
         dialog := false, listener := true, store := none, showCount := 0,
         timeoutCount := 0, continueCount := 0, logoutCount := 0,
         storeWrites := 0 } : St).dialog = false
    ∧ parseIntJS "850" = JSVal.num 850
    ∧ (Env.mk 100 200).warnAt
        ≤ ({ now := 1000, warnFireAt := some 1100, timeoutFireAt := some 1200,
             dialog := false, listener := true, store := none, showCount := 0,
             timeoutCount := 0, continueCount := 0, logoutCount := 0,
             storeWrites := 0 } : St).now - 850
    ∧ onStorageEvent ⟨100, 200⟩
        { now := 1000, warnFireAt := some 1100, timeoutFireAt := some 1200,
          dialog := false, listener := true, store := none, showCount := 0,
          timeoutCount := 0, continueCount := 0, logoutCount := 0,
          storeWrites := 0 }
        ⟨storageKey, some "850"⟩
      = ({ now := 1000, warnFireAt := some 1100, timeoutFireAt := some 1200,
           dialog := true, listener := true, store := none, showCount := 1,
           timeoutCount := 0, continueCount := 0, logoutCount := 0,
           storeWrites := 0 }, [Ev.showDlg]) :=
  ⟨rfl, rfl, by decide, by decide,
   overdue_notification_shows_dialog_immediately ⟨100, 200⟩ _ "850" 850
     rfl rfl (by decide) (by decide)⟩

/-- C4 counterexample: at a concrete state with both handles armed, an
overdue remote notification (elapsed 150 with warnAt 100) invokes the warn
action (the dialog is shown, the only event is the show) while both
previously pending handles stay armed: nothing is cancelled before the warn
action is invoked, so the claim is false on this code. -/
theorem overdue_notification_keeps_handles_cx :
    (onStorageEvent ⟨100, 200⟩
      { now := 1000, warnFireAt := some 1080, timeoutFireAt := some 1180,
        dialog := false, listener := true, store := some "980", showCount := 0,
        timeoutCount := 0, continueCount := 0, logoutCount := 0,
        storeWrites := 0 }
      ⟨storageKey, some "850"⟩).1.warnFireAt = some 1080
    ∧ (onStorageEvent ⟨100, 200⟩
      { now := 1000, warnFireAt := some 1080, timeoutFireAt := some 1180,
        dialog := false, listener := true, store := some "980", showCount := 0,
        timeoutCount := 0, continueCount := 0, logoutCount := 0,
        storeWrites := 0 }
      ⟨storageKey, some "850"⟩).1.timeoutFireAt = some 1180
    ∧ (onStorageEvent ⟨100, 200⟩
      { now := 1000, warnFireAt := some 1080, timeoutFireAt := some 1180,
        dialog := false, listener := true, store := some "980", showCount := 0,
        timeoutCount := 0, continueCount := 0, logoutCount := 0,
        storeWrites := 0 }
      ⟨storageKey, some "850"⟩).2 = [Ev.showDlg] := by
  refine ⟨by decide, by decide, by decide⟩

/-- C4 amended: in the overdue reconciliation paths nothing is cancelled.
The remote-notification overdue branch closes and reshows the dialog and
leaves both pending handles exactly as they were (no clear, no schedule);
the activation overdue branch (reachable only with non-positive warnAt,
since activation always reads back the instant it just wrote) shows the
dialog with both handles never having been armed. Handles are both cleared
before rescheduling only in the paths that go through startTimers. -/
theorem overdue_notification_cancels_nothing (env : Env) (st : St)
    (s : String) (t : Int)
    (hl : st.listener = true)
    (hp : parseIntJS s = JSVal.num t)
    (hover : env.warnAt ≤ st.now - t) :
    onStorageEvent env st ⟨storageKey, some s⟩
      = ({ st with dialog := true, showCount := st.showCount + 1 },
         (if st.dialog then [Ev.closeDlg] else []) ++ [Ev.showDlg]) := by
  unfold onStorageEvent handleStorageChange
  have hs : s ≠ "" := ne_empty_of_parse_num hp
  simp only [hl, if_true]
  have hcond : (⟨storageKey, some s⟩ : StorageEvent).key = storageKey ∧ s ≠ "" :=
    ⟨rfl, hs⟩
  simp only [hcond, and_self, if_true, hp, hover]
  unfold closeDialog showDialog
  cases hd : st.dialog <;> simp [hd, hover, hs, hl]

/-- C4 amended witness. -/
theorem overdue_notification_cancels_nothing_witness :
    ({ now := 1000, warnFireAt := some 1080, timeoutFireAt := some 1180,
       dialog := true, listener := true, store := none, showCount := 1,
       timeoutCount := 0, continueCount := 0, logoutCount := 0,
       storeWrites := 0 } : St).listener = true
    ∧ parseIntJS "850" = JSVal.num 850
    ∧ (Env.mk 100 200).warnAt
        ≤ ({ now := 1000, warnFireAt := some 1080, timeoutFireAt := some 1180,
             dialog := true, listener := true, store := none, showCount := 1,
             timeoutCount := 0, continueCount := 0, logoutCount := 0,
             storeWrites := 0 } : St).now - 850
    ∧ onStorageEvent ⟨100, 200⟩
        { now := 1000, warnFireAt := some 1080, timeoutFireAt := some 1180,
          dialog := true, listener := true, store := none, showCount := 1,
          timeoutCount := 0, continueCount := 0, logoutCount := 0,
          storeWrites := 0 }
        ⟨storageKey, some "850"⟩
      = ({ now := 1000, warnFireAt := some 1080, timeoutFireAt := some 1180,
           dialog := true, listener := true, store := none, showCount := 2,
           timeoutCount := 0, continueCount := 0, logoutCount := 0,
           storeWrites := 0 }, [Ev.closeDlg, Ev.showDlg]) :=
  ⟨rfl, by decide, by decide,
   overdue_notification_cancels_nothing ⟨100, 200⟩ _ "850" 850
     rfl (by decide) (by decide)⟩

/-- C2 counterexample: a remote reset notification 50ms old with warnAt 100
and timeoutAt 200 (so 0 < elapsed < min) reschedules the warn callback to
fire a full 100ms after processing (at 1100), not after warnAt - elapsed =
50ms (at 1050) as the claim requires. -/
theorem remote_reset_full_restart_cx :
    (onStorageEvent ⟨100, 200⟩
      { now := 1000, warnFireAt := some 1080, timeoutFireAt := some 1180,
        dialog := false, listener := true, store := some "980", showCount := 0,
        timeoutCount := 0, continueCount := 0, logoutCount := 0,
        storeWrites := 0 }
      ⟨storageKey, some "950"⟩).1.warnFireAt = some 1100
    ∧ (onStorageEvent ⟨100, 200⟩
      { now := 1000, warnFireAt := some 1080, timeoutFireAt := some 1180,
        dialog := false, listener := true, store := some "980", showCount := 0,
        timeoutCount := 0, continueCount := 0, logoutCount := 0,
        storeWrites := 0 }
      ⟨storageKey, some "950"⟩).1.warnFireAt ≠ some (1000 + (100 - 50)) := by
  refine ⟨by decide, by decide⟩

/-- C2 amended: a remote reset notification with 0 < elapsed < min(warnAt,
timeoutAt) closes any dialog and restarts a full-length countdown measured
from the moment the notification is processed: the warn callback is
rescheduled to fire after the full clamped warnAt (and the timeout after the
full clamped timeoutAt), not after warnAt - elapsed. -/
theorem remote_reset_restarts_full_length (env : Env) (st : St)
    (s : String) (t : Int)
    (hl : st.listener = true)
    (hp : parseIntJS s = JSVal.num t)
    (h0 : 0 < st.now - t)
    (hmin : st.now - t < min env.warnAt env.timeoutAt) :
    (onStorageEvent env st ⟨storageKey, some s⟩).1
      = { st with dialog := false,
                  warnFireAt := some (st.now + max 0 env.warnAt),
                  timeoutFireAt := some (st.now + max 0 env.timeoutAt) } := by
  unfold onStorageEvent handleStorageChange
  have hs : s ≠ "" := ne_empty_of_parse_num hp
  simp only [hl, if_true]
  have hcond : (⟨storageKey, some s⟩ : StorageEvent).key = storageKey ∧ s ≠ "" :=
    ⟨rfl, hs⟩
  have hnover : ¬ (env.warnAt ≤ st.now - t) := by
    have := min_le_left env.warnAt env.timeoutAt
    omega
  simp only [hcond, and_self, if_true, hp, hnover, if_false, hmin]
  unfold closeDialog
  cases hd : st.dialog <;> simp [hd, hmin, hnover, startTimers_fst, hs, hl]

/-- C2 amended witness. -/
theorem remote_reset_restarts_full_length_witness :
    ({ now := 1000, warnFireAt := some 1080, timeoutFireAt := some 1180,
       dialog := false, listener := true, store := some "980", showCount := 0,
       timeoutCount := 0, continueCount := 0, logoutCount := 0,
       storeWrites := 0 } : St).listener = true
    ∧ parseIntJS "950" = JSVal.num 950
    ∧ (0 : Int) < 1000 - 950
    ∧ (1000 - 950 : Int) < min (Env.mk 100 200).warnAt (Env.mk 100 200).timeoutAt
    ∧ (onStorageEvent ⟨100, 200⟩
        { now := 1000, warnFireAt := some 1080, timeoutFireAt := some 1180,
          dialog := false, listener := true, store := some "980", showCount := 0,
          timeoutCount := 0, continueCount := 0, logoutCount := 0,
          storeWrites := 0 }
        ⟨storageKey, some "950"⟩).1
      = { now := 1000, warnFireAt := some (1000 + max 0 (100 : Int)),
          timeoutFireAt := some (1000 + max 0 (200 : Int)),
          dialog := false, listener := true, store := some "980", showCount := 0,
          timeoutCount := 0, continueCount := 0, logoutCount := 0,
          storeWrites := 0 } :=
  ⟨rfl, by decide, by decide, by decide,
   remote_reset_restarts_full_length ⟨100, 200⟩ _ "950" 950
     rfl (by decide) (by decide) (by decide)⟩

/-- C1: activation with a persisted reset instant 50ms in the past and
warnAt = 100 does NOT schedule the warning 100ms after the persisted instant
(at 1050): the init block writes the current instant to the store at line 212
before reading it back at line 215, so the reconciliation always sees
elapsed 0 and the warning is scheduled a full 100ms after activation (1100).
The store conjunct exhibits the overwrite of the persisted value. -/
theorem activation_ignores_persisted_reset :
    (sessionTimeout ⟨100, 200⟩ 1000 (some "950")).1.warnFireAt = some 1100
    ∧ (sessionTimeout ⟨100, 200⟩ 1000 (some "950")).1.warnFireAt
        ≠ some (950 + 100)
    ∧ (sessionTimeout ⟨100, 200⟩ 1000 (some "950")).1.store = some "1000"
    ∧ (sessionTimeout ⟨100, 200⟩ 1000 (some "950")).1.timeoutFireAt
        = some 1200 := by
  refine ⟨by decide, by decide, by decide, by decide⟩

/-- Helper for C3: advancing to the warn instant after a fresh start, with
0 ≤ warnAt < timeoutAt, fires exactly the warn callback. -/
theorem advance_warn_of_lt (env : Env) (st : St)
    (hw : 0 ≤ env.warnAt) (hlt : env.warnAt < env.timeoutAt) :
    advanceTo (startTimers env st).1 (st.now + env.warnAt)
      = { st with now := st.now + env.warnAt, warnFireAt := none,
                  timeoutFireAt := some (st.now + env.timeoutAt),
                  dialog := true, showCount := st.showCount + 1 } := by
  rw [startTimers_fst, max_eq_right hw, max_eq_right (by omega : (0:Int) ≤ env.timeoutAt)]
  unfold advanceTo fireWarn
  have h1 : st.now + env.warnAt ≤ st.now + env.warnAt := le_refl _
  have h2 : ¬ (st.now + env.timeoutAt ≤ st.now + env.warnAt) := by omega
  simp [h1, h2]

/-- Helper for C3: with warnAt = timeoutAt both callbacks fire at the shared
instant, the warn callback first (it is scheduled first). -/
theorem advance_warn_of_eq (env : Env) (st : St)
    (hw : 0 ≤ env.warnAt) (heq : env.warnAt = env.timeoutAt) :
    advanceTo (startTimers env st).1 (st.now + env.warnAt)
      = { st with now := st.now + env.warnAt, warnFireAt := none,
                  timeoutFireAt := none, dialog := false,
                  showCount := st.showCount + 1,
                  timeoutCount := st.timeoutCount + 1 } := by
  rw [startTimers_fst, max_eq_right hw, max_eq_right (by omega : (0:Int) ≤ env.timeoutAt)]
  unfold advanceTo fireWarn fireTimeoutCb
  have h1 : st.now + env.warnAt ≤ st.now + env.warnAt := le_refl _
  have h2 : st.now + env.timeoutAt ≤ st.now + env.warnAt := by omega
  have h3 : st.now + env.warnAt ≤ st.now + env.timeoutAt := by omega
  simp [h1, h2, h3]

/-- C3: for all non-negative warnAt ≤ timeoutAt, after startTimers the warn
action fires when exactly warnAt has elapsed and the timeout action when
exactly timeoutAt has elapsed, each exactly once per cycle; neither fires
one instant earlier; firing the warn callback does not cancel the timeout
callback (the timeout handle stays armed at its original instant whenever
warnAt < timeoutAt); and the timeout callback first hides any visible
warning, then invokes the timeout action unconditionally. -/
theorem fresh_countdown_two_stage (env : Env) (st : St)
    (hw : 0 ≤ env.warnAt) (hwt : env.warnAt ≤ env.timeoutAt) :
    (startTimers env st).1.warnFireAt = some (st.now + env.warnAt)
    ∧ (startTimers env st).1.timeoutFireAt = some (st.now + env.timeoutAt)
    ∧ (advanceTo (startTimers env st).1 (st.now + env.warnAt)).showCount
        = st.showCount + 1
    ∧ (advanceTo (startTimers env st).1 (st.now + env.warnAt)).timeoutCount
        = st.timeoutCount + (if env.warnAt = env.timeoutAt then 1 else 0)
    ∧ (advanceTo (startTimers env st).1 (st.now + env.warnAt)).dialog
        = (if env.warnAt < env.timeoutAt then true else false)
    ∧ (advanceTo (startTimers env st).1 (st.now + env.warnAt)).timeoutFireAt
        = (if env.warnAt < env.timeoutAt then some (st.now + env.timeoutAt) else none)
    ∧ (advanceTo (advanceTo (startTimers env st).1 (st.now + env.warnAt))
        (st.now + env.timeoutAt)).showCount = st.showCount + 1
    ∧ (advanceTo (advanceTo (startTimers env st).1 (st.now + env.warnAt))
        (st.now + env.timeoutAt)).timeoutCount = st.timeoutCount + 1
    ∧ (advanceTo (advanceTo (startTimers env st).1 (st.now + env.warnAt))
        (st.now + env.timeoutAt)).dialog = false
    ∧ (advanceTo (startTimers env st).1 (st.now + env.warnAt - 1)).showCount
        = st.showCount
    ∧ (advanceTo (startTimers env st).1 (st.now + env.warnAt - 1)).timeoutCount
        = st.timeoutCount
    ∧ (advanceTo (advanceTo (startTimers env st).1 (st.now + env.warnAt))
        (st.now + env.timeoutAt - 1)).timeoutCount
        = st.timeoutCount + (if env.warnAt = env.timeoutAt then 1 else 0)
    ∧ (handleTimeout st).1.dialog = false
    ∧ (handleTimeout st).1.timeoutCount = st.timeoutCount + 1
    ∧ (handleTimeout st).2
        = (if st.dialog then [Ev.closeDlg] else []) ++ [Ev.invokeTimeout] := by
  have hto : (0:Int) ≤ env.timeoutAt := by omega
  have hA := startTimers_fst env st
  have hAcoll : (startTimers env st).1
      = { st with warnFireAt := some (st.now + env.warnAt),
                  timeoutFireAt := some (st.now + env.timeoutAt) } := by
    rw [hA, max_eq_right hw, max_eq_right hto]
  have hEarly :
      (advanceTo (startTimers env st).1 (st.now + env.warnAt - 1))
        = { st with now := st.now + env.warnAt - 1,
                    warnFireAt := some (st.now + env.warnAt),
                    timeoutFireAt := some (st.now + env.timeoutAt) } := by
    rw [hAcoll]
    unfold advanceTo
    have h1 : ¬ (st.now + env.warnAt ≤ st.now + env.warnAt - 1) := by omega
    have h2 : ¬ (st.now + env.timeoutAt ≤ st.now + env.warnAt - 1) := by omega
    simp [h1, h2]
  have hHT : (handleTimeout st).1.dialog = false
      ∧ (handleTimeout st).1.timeoutCount = st.timeoutCount + 1
      ∧ (handleTimeout st).2
          = (if st.dialog then [Ev.closeDlg] else []) ++ [Ev.invokeTimeout] := by
    unfold handleTimeout closeDialog
    cases hd : st.dialog <;> simp [hd]
  rcases lt_or_eq_of_le hwt with hlt | heqr
  · have hne : ¬ (env.warnAt = env.timeoutAt) := by omega
    have hW := advance_warn_of_lt env st hw hlt
    have hT :
        (advanceTo (advanceTo (startTimers env st).1 (st.now + env.warnAt))
          (st.now + env.timeoutAt))
          = { st with now := st.now + env.timeoutAt, warnFireAt := none,
                      timeoutFireAt := none, dialog := false,
                      showCount := st.showCount + 1,
                      timeoutCount := st.timeoutCount + 1 } := by
      rw [hW]
      unfold advanceTo fireTimeoutCb
      have h1 : st.now + env.timeoutAt ≤ st.now + env.timeoutAt := le_refl _
      simp [h1]
    have hMid :
        (advanceTo (advanceTo (startTimers env st).1 (st.now + env.warnAt))
          (st.now + env.timeoutAt - 1)).timeoutCount = st.timeoutCount := by
      rw [hW]
      unfold advanceTo
      have h1 : ¬ (st.now + env.timeoutAt ≤ st.now + env.timeoutAt - 1) := by omega
      simp [h1]
    refine ⟨by rw [hAcoll], by rw [hAcoll], by rw [hW], ?_, ?_, ?_,
      by rw [hT], by rw [hT], by rw [hT], by rw [hEarly], by rw [hEarly],
      ?_, hHT.1, hHT.2.1, hHT.2.2⟩
    · rw [hW]; simp [hne]
    · rw [hW]; simp [hlt]
    · rw [hW]; simp [hlt]
    · rw [hMid]; simp [hne]
  · have hnlt : ¬ (env.warnAt < env.timeoutAt) := by omega
    have hW := advance_warn_of_eq env st hw heqr
    have hT :
        (advanceTo (advanceTo (startTimers env st).1 (st.now + env.warnAt))
          (st.now + env.timeoutAt))
          = { st with now := st.now + env.timeoutAt, warnFireAt := none,
                      timeoutFireAt := none, dialog := false,
                      showCount := st.showCount + 1,
                      timeoutCount := st.timeoutCount + 1 } := by
      rw [hW]
      unfold advanceTo
      simp
    have hMid :
        (advanceTo (advanceTo (startTimers env st).1 (st.now + env.warnAt))
          (st.now + env.timeoutAt - 1)).timeoutCount = st.timeoutCount + 1 := by
      rw [hW]
      unfold advanceTo
      simp
    refine ⟨by rw [hAcoll], by rw [hAcoll], by rw [hW], ?_, ?_, ?_,
      by rw [hT], by rw [hT], by rw [hT], by rw [hEarly], by rw [hEarly],
      ?_, hHT.1, hHT.2.1, hHT.2.2⟩
    · rw [hW]; simp [heqr]
    · rw [hW]; simp [hnlt]
    · rw [hW]; simp [hnlt]
    · rw [hMid]; simp [heqr]

/-- C3 witness: the concrete 100/200 cycle from a pristine state. -/
theorem fresh_countdown_two_stage_witness :
    (0 : Int) ≤ (Env.mk 100 200).warnAt
    ∧ (Env.mk 100 200).warnAt ≤ (Env.mk 100 200).timeoutAt
    ∧ (advanceTo (startTimers (Env.mk 100 200) (initSt 0 none)).1
        ((initSt 0 none).now + (Env.mk 100 200).warnAt)).showCount
        = (initSt 0 none).showCount + 1 :=
  ⟨by decide, by decide,
   (fresh_countdown_two_stage (Env.mk 100 200) (initSt 0 none)
     (by decide) (by decide)).2.2.1⟩

/-- Helper for C7: once both handles are gone and the listener detached,
any single stimulus (time passing, storage notification) leaves the handles
gone, the listener detached, and every observable action count unchanged. -/
theorem applyStim_quiet (env : Env) (st : St) (s : Stim)
    (h1 : st.warnFireAt = none) (h2 : st.timeoutFireAt = none)
    (h3 : st.listener = false) :
    (applyStim env st s).warnFireAt = none
    ∧ (applyStim env st s).timeoutFireAt = none
    ∧ (applyStim env st s).listener = false
    ∧ (applyStim env st s).showCount = st.showCount
    ∧ (applyStim env st s).timeoutCount = st.timeoutCount
    ∧ (applyStim env st s).storeWrites = st.storeWrites := by
  cases s with
  | advance t =>
      unfold applyStim advanceTo
      simp [h1, h2, h3]
  | storage ev =>
      unfold applyStim onStorageEvent
      simp [h1, h2, h3]

/-- Helper for C7: the same, over any finite sequence of stimuli. -/
theorem runStims_quiet (env : Env) :
    ∀ (stims : List Stim) (st : St),
      st.warnFireAt = none → st.timeoutFireAt = none → st.listener = false →
      (runStims env st stims).warnFireAt = none
      ∧ (runStims env st stims).timeoutFireAt = none
      ∧ (runStims env st stims).listener = false
      ∧ (runStims env st stims).showCount = st.showCount
      ∧ (runStims env st stims).timeoutCount = st.timeoutCount
      ∧ (runStims env st stims).storeWrites = st.storeWrites := by
  intro stims
  induction stims with
  | nil =>
      intro st h1 h2 h3
      exact ⟨h1, h2, h3, rfl, rfl, rfl⟩
  | cons s rest ih =>
      intro st h1 h2 h3
      have ha := applyStim_quiet env st s h1 h2 h3
      have hr := ih (applyStim env st s) ha.1 ha.2.1 ha.2.2.1
      have hfold : runStims env st (s :: rest)
          = runStims env (applyStim env st s) rest := rfl
      rw [hfold]
      refine ⟨hr.1, hr.2.1, hr.2.2.1, ?_, ?_, ?_⟩
      · rw [hr.2.2.2.1, ha.2.2.2.1]
      · rw [hr.2.2.2.2.1, ha.2.2.2.2.1]
      · rw [hr.2.2.2.2.2, ha.2.2.2.2.2]

/-- C7: after destroy, no matter how much time passes and whatever storage
events arrive, the warn action (dialog show) and the timeout action are
never invoked again and the shared store is never written again. -/
theorem dispose_prevents_later_actions (env : Env) (st : St)
    (stims : List Stim) :
    (runStims env (destroy st).1 stims).showCount = (destroy st).1.showCount
    ∧ (runStims env (destroy st).1 stims).timeoutCount
        = (destroy st).1.timeoutCount
    ∧ (runStims env (destroy st).1 stims).storeWrites
        = (destroy st).1.storeWrites := by
  have hd := destroy_fst st
  have h1 : (destroy st).1.warnFireAt = none := by rw [hd]
  have h2 : (destroy st).1.timeoutFireAt = none := by rw [hd]
  have h3 : (destroy st).1.listener = false := by rw [hd]
  have h := runStims_quiet env stims (destroy st).1 h1 h2 h3
  exact ⟨h.2.2.2.1, h.2.2.2.2.1, h.2.2.2.2.2⟩

/-- Helper for C8: at activation the instant just written is read back. -/
theorem getLastResetTime_after_write (st : St) :
    getLastResetTime (updateLastResetTime st).1 = JSVal.num st.now := by
  unfold updateLastResetTime getLastResetTime
  simp [intToString_ne_empty st.now, parseIntJS_intToString]

/-- Helper: with positive durations the activation block always produces the
same state — full-length countdown measured from activation — regardless of
what was in the store, because line 212 overwrites the store before line 215
reads it, making the observed elapsed time zero. -/
theorem sessionTimeout_pos (env : Env) (now : Int) (store0 : Option String)
    (hw : 0 < env.warnAt) (ht : 0 < env.timeoutAt) :
    (sessionTimeout env now store0).1
      = { now := now, warnFireAt := some (now + env.warnAt),
          timeoutFireAt := some (now + env.timeoutAt), dialog := false,
          listener := true, store := some (intToString now), showCount := 0,
          timeoutCount := 0, continueCount := 0, logoutCount := 0,
          storeWrites := 1 } := by
  unfold sessionTimeout
  simp only [getLastResetTime_after_write]
  simp only [updateLastResetTime, initSt]
  by_cases hn : now = 0
  · subst hn
    simp [startTimers_fst, max_eq_right (le_of_lt hw), max_eq_right (le_of_lt ht)]
  · have hnover : ¬ (env.warnAt ≤ (0 : Int)) := by omega
    have hmin : (0 : Int) < min env.warnAt env.timeoutAt := lt_min hw ht
    have hrw : (0 : Int) ⊔ env.warnAt = env.warnAt := max_eq_right (le_of_lt hw)
    have hrt : (0 : Int) ⊔ env.timeoutAt = env.timeoutAt := max_eq_right (le_of_lt ht)
    simp [hn, hnover, hmin, hrw, hrt, hw, ht]

/-- C8: a stored value that parseInt cannot parse (NaN) makes activation
behave exactly as if the store were empty — the whole activation result,
state and events, coincides with the absent-store activation — and (for the
positive durations every real configuration uses) a fresh full-length
countdown is started: warn after warnAt, timeout after timeoutAt, no dialog.
All functions are total, so no exception is possible. -/
theorem malformed_store_treated_as_absent (env : Env) (now : Int) (s : String)
    (hmal : parseIntJS s = JSVal.nan)
    (hw : 0 < env.warnAt) (ht : 0 < env.timeoutAt) :
    sessionTimeout env now (some s) = sessionTimeout env now none
    ∧ (sessionTimeout env now (some s)).1.warnFireAt = some (now + env.warnAt)
    ∧ (sessionTimeout env now (some s)).1.timeoutFireAt
        = some (now + env.timeoutAt)
    ∧ (sessionTimeout env now (some s)).1.dialog = false := by
  refine ⟨rfl, ?_, ?_, ?_⟩ <;> rw [sessionTimeout_pos env now (some s) hw ht]

/-- C8 witness. -/
theorem malformed_store_treated_as_absent_witness :
    parseIntJS "not-a-number" = JSVal.nan
    ∧ (0 : Int) < (Env.mk 100 200).warnAt
    ∧ (0 : Int) < (Env.mk 100 200).timeoutAt
    ∧ sessionTimeout (Env.mk 100 200) 1000 (some "not-a-number")
        = sessionTimeout (Env.mk 100 200) 1000 none :=
  ⟨by decide, by decide, by decide,
   (malformed_store_treated_as_absent (Env.mk 100 200) 1000 "not-a-number"
     (by decide) (by decide) (by decide)).1⟩

end SessionTimeout
